import Mathlib

/-!
# Verification of the tool-augmented conversation loop of `mcp-mcp`

Shallow embedding of the conversation-loop client code of the repository,
translated from `src/client/main.py` (the plain variant, `MAX_TURNS = 10`)
and `src/client/bedrock.py` (the defensive variant, `MAX_TURNS = 100`).
Both variants share the `Message` data model and the schema translator
`Message.to_bedrock_format`; they differ in input validation, exception
handling and tool-dispatch error recovery, so both loops are embedded
separately and verbatim.

Modelling conventions:
* Python dict-shaped values are structures with `Option` fields for keys
  that a gateway response may omit; accessing a missing key yields a
  `KeyError`-tagged exception value.
* JSON payloads that the loop only carries around and never inspects
  (tool argument objects, schema `properties`) are kept as opaque strings.
* Exceptions are explicit `Except Exc` values; a `try/except` block is a
  `match` on them.  Exception classes that the code distinguishes
  (`asyncio.TimeoutError`, `KeyError`, everything else) are the three
  constructors of `Exc`.
* The Bedrock gateway and the MCP tool session are stubs passed in as
  functions; a gateway stub is indexed by the number of gateway calls
  already made, so adversarial stub behaviours are expressible.
* Every externally observable action (gateway call attempt, tool host
  call, turn-counter increment) is recorded in an `Event` trace returned
  alongside the result.
-/

/-- Exception values.  The code branches on `asyncio.TimeoutError` and
`KeyError`; every other exception class falls into the generic
`except Exception` arms, modelled by `Exc.err`. -/
inductive Exc where
  | timeoutErr (msg : String)
  | keyErr (msg : String)
  | err (msg : String)
  deriving DecidableEq, Repr

/-- `str(e)` applied to an exception. -/
def Exc.str : Exc → String
  | .timeoutErr m => m
  | .keyErr m => m
  | .err m => m

/-- Opaque JSON payload (tool argument objects, schema `properties`):
the loop never looks inside these, so they are carried as rendered text. -/
abbrev JsonVal := String

/-- Content of a `toolResult` history block: the client always builds
`[\x7b"json": \x7b"text": ...\x7d\x7d]`. -/
inductive ResultContent where
  | jsonText (text : String)
  deriving DecidableEq, Repr

/-- A content block of a history message, as the dict shapes appended by the
client: `\x7b"text": ...\x7d`, `\x7b"toolUse": ...\x7d`, `\x7b"toolResult": ...\x7d`. -/
inductive ContentBlock where
  | text (t : String)
  | toolUse (toolUseId name : String) (input : JsonVal)
  | toolResult (toolUseId : String) (content : List ResultContent)
  deriving DecidableEq, Repr

/-- The `Message` dataclass of both client variants. -/
structure Message where
  role : String
  content : List ContentBlock
  deriving DecidableEq, Repr

/-- `Message.user`. -/
def Message.user (text : String) : Message :=
  { role := "user", content := [.text text] }

/-- `Message.assistant`. -/
def Message.assistant (text : String) : Message :=
  { role := "assistant", content := [.text text] }

/-- `Message.tool_request`. -/
def Message.tool_request (tool_use_id name : String) (input_data : JsonVal) : Message :=
  { role := "assistant", content := [.toolUse tool_use_id name input_data] }

/-- An element of the `content` argument that reaches `Message.tool_result`.
The success paths pass MCP content objects (attribute access `.text`
succeeds when the object is a text block); the error paths of
`bedrock.py` pass a plain dict `\x7b"text": msg\x7d`, on which the attribute
access `.text` raises `AttributeError`. -/
inductive ResultItem where
  | mcp (text : Option String)
  | dict (text : String)
  deriving DecidableEq, Repr

/-- The message of `str(AttributeError)` raised by `content[0].text` when
`content[0]` is a plain dict (apostrophes of the CPython text elided). -/
def attrErrDict : String := "dict object has no attribute text"

/-- The message raised when an MCP content object has no text attribute. -/
def attrErrMcp : String := "object has no attribute text"

/-- `Message.tool_result`: evaluates `content[0].text`, so it raises
`IndexError` on an empty list and `AttributeError` when the first element
has no `.text` attribute; otherwise it builds the tool-result message. -/
def Message.tool_result (tool_use_id : String) (content : List ResultItem) :
    Except Exc Message :=
  match content with
  | [] => .error (.err "list index out of range")
  | .dict _ :: _ => .error (.err attrErrDict)
  | .mcp none :: _ => .error (.err attrErrMcp)
  | .mcp (some t) :: _ =>
      .ok { role := "user",
            content := [.toolResult tool_use_id [.jsonText t]] }

/-- The `input_schema` dict of a tool descriptor entry. -/
structure InputSchema where
  properties : JsonVal
  required : List String
  deriving DecidableEq, Repr

/-- A tool object returned by `session.list_tools()`. -/
structure SessionTool where
  name : String
  description : String
  inputSchema : InputSchema
  deriving DecidableEq, Repr

/-- An entry of `available_tools`: the dict
`\x7b"name", "description", "input_schema"\x7d` built in `process_query`. -/
structure ToolDescriptor where
  name : String
  description : String
  input_schema : InputSchema
  deriving DecidableEq, Repr

/-- The `json` object inside the Bedrock tool schema envelope. -/
structure ToolSchemaJson where
  type : String
  properties : JsonVal
  required : List String
  deriving DecidableEq, Repr

/-- The `inputSchema` envelope. -/
structure ToolInputSchema where
  json : ToolSchemaJson
  deriving DecidableEq, Repr

/-- The `toolSpec` object. -/
structure ToolSpec where
  name : String
  description : String
  inputSchema : ToolInputSchema
  deriving DecidableEq, Repr

/-- One element of the list produced by `Message.to_bedrock_format`. -/
structure BedrockTool where
  toolSpec : ToolSpec
  deriving DecidableEq, Repr

/-- `Message.to_bedrock_format`: the schema translator. -/
def Message.to_bedrock_format (tools_list : List ToolDescriptor) : List BedrockTool :=
  tools_list.map fun tool =>
    { toolSpec :=
        { name := tool.name,
          description := tool.description,
          inputSchema :=
            { json :=
                { type := "object",
                  properties := tool.input_schema.properties,
                  required := tool.input_schema.required } } } }

/-- The `toolUse` dict inside a gateway response content item. -/
structure ToolUseBlock where
  toolUseId : String
  name : String
  input : JsonVal
  deriving DecidableEq, Repr

/-- One item of `response['output']['message']['content']`.  The loop tests
`'text' in item` first and `'toolUse' in item` second, so both fields are
optional and may coexist. -/
structure RespItem where
  text : Option String
  toolUse : Option ToolUseBlock
  deriving DecidableEq, Repr

/-- A gateway response.  `stopReason = none` models a response dict without
the `'stopReason'` key; `outputMessageContent = none` models any of the
keys `'output'`, `'message'`, `'content'` being absent. -/
structure GatewayResponse where
  stopReason : Option String
  outputMessageContent : Option (List RespItem)
  deriving DecidableEq, Repr

/-- The object returned by `session.call_tool`. -/
structure CallToolResult where
  content : List ResultItem
  deriving DecidableEq, Repr

/-- Tool host stub: `call_tool(name, args)`, possibly raising. -/
abbrev ToolStub := String → JsonVal → Except Exc CallToolResult

/-- Gateway stub: given the number of gateway calls already made and the
current message history, return a response or raise.  (The converse call
also receives the tool schemas; no claim inspects them on the gateway
side, so the stub is blind to them.) -/
abbrev GwStub := Nat → List Message → Except Exc GatewayResponse

/-- Observable actions of one query processing, in emission order. -/
inductive Event where
  | gwCall (history : List Message)
  | toolCall (name toolUseId : String) (input : JsonVal) (before : List Message)
  | turnIncr (count : Nat)
  deriving DecidableEq, Repr

/-- Number of gateway call attempts in a trace. -/
def gwCount (evs : List Event) : Nat :=
  evs.countP fun e => match e with | .gwCall _ => true | _ => false

/-- Number of tool host calls in a trace. -/
def toolCount (evs : List Event) : Nat :=
  evs.countP fun e => match e with | .toolCall .. => true | _ => false

/-- The successive values of the turn counter recorded in a trace. -/
def turnVals (evs : List Event) : List Nat :=
  evs.filterMap fun e => match e with | .turnIncr n => some n | _ => none

/-- Number of `toolResult` blocks with the given `toolUseId` in a history. -/
def toolResultCount (id : String) (msgs : List Message) : Nat :=
  (msgs.map fun m =>
    m.content.countP fun b =>
      match b with | .toolResult i _ => i == id | _ => false).sum

/-- Number of `toolUse` blocks with the given `toolUseId` in a history. -/
def toolUseCount (id : String) (msgs : List Message) : Nat :=
  (msgs.map fun m =>
    m.content.countP fun b =>
      match b with | .toolUse i _ _ => i == id | _ => false).sum

/-- The tool blocks of a response content list that the loop dispatches,
in arrival order: items without a `'text'` key and with a `'toolUse'` key. -/
def dispatchedBlocks (items : List RespItem) : List ToolUseBlock :=
  items.filterMap fun it =>
    match it.text, it.toolUse with
    | none, some tu => some tu
    | _, _ => none

/-- The tool blocks dispatched according to a trace, in order. -/
def toolCallBlocks (evs : List Event) : List ToolUseBlock :=
  evs.filterMap fun e =>
    match e with
    | .toolCall n id inp _ => some { toolUseId := id, name := n, input := inp }
    | _ => none

/-- Number of tool blocks a response would dispatch. -/
def respDispatchCount (r : GatewayResponse) : Nat :=
  match r.outputMessageContent with
  | some items => (dispatchedBlocks items).length
  | none => 0

/-- `"\n\n".join(final_text)`. -/
def joinFrags (final_text : List String) : String :=
  String.intercalate "\n\n" final_text

/-- The marker appended when the turn counter reaches `MAX_TURNS`. -/
def limitMarker : String := "\n[Max turns reached, ending conversation.]"

/-! ## The plain variant: `src/client/main.py` -/

/-- Result of `_handle_tool_call` together with the history mutations it
performed; the `main.py` variant catches every exception, so it never
raises out of the call. -/
structure HandleOut where
  messages : List Message
  fragments : List String
  events : List Event
  deriving Repr

/-- `MCPClient._handle_tool_call` of `main.py`.  On success it appends the
tool-request message and then the tool-result message; building the
tool-result message itself can raise (empty content, first block without
text), which the blanket `except Exception` turns into an error fragment,
leaving whatever was already appended in place. -/
def main_handle_tool_call (call_tool : ToolStub) (ti : ToolUseBlock)
    (messages : List Message) : HandleOut :=
  let ev := Event.toolCall ti.name ti.toolUseId ti.input messages
  match call_tool ti.name ti.input with
  | .ok result =>
      let m1 := messages ++ [Message.tool_request ti.toolUseId ti.name ti.input]
      match Message.tool_result ti.toolUseId result.content with
      | .ok res =>
          { messages := m1 ++ [res],
            fragments := [s!"[Calling tool {ti.name} with args {ti.input}]"],
            events := [ev] }
      | .error e =>
          let m := e.str
          { messages := m1,
            fragments := [s!"[Error calling tool {ti.name}: {m}]"],
            events := [ev] }
  | .error e =>
      let m := e.str
      { messages := messages,
        fragments := [s!"[Error calling tool {ti.name}: {m}]"],
        events := [ev] }

/-- The `for item in response['output']['message']['content']` loop of
`main.py`'s `_process_response`: text items are appended as assistant
thinking; each tool item is dispatched and immediately followed by a fresh
gateway request that replaces `response`.  A gateway exception propagates
(there is no `try` around the request in this variant). -/
def main_process_items (gw : GwStub) (call_tool : ToolStub) :
    List RespItem → List Message → List String → GatewayResponse → Nat →
    Except Exc (List Message × List String × GatewayResponse × Nat) × List Event
  | [], messages, final_text, resp, calls =>
      (.ok (messages, final_text, resp, calls), [])
  | item :: rest, messages, final_text, resp, calls =>
      match item.text with
      | some t =>
          main_process_items gw call_tool rest
            (messages ++ [Message.assistant t])
            (final_text ++ [s!"[Thinking: {t}]"]) resp calls
      | none =>
          match item.toolUse with
          | some ti =>
              let h := main_handle_tool_call call_tool ti messages
              let ev := Event.gwCall h.messages
              match gw calls h.messages with
              | .error e => (.error e, h.events ++ [ev])
              | .ok r =>
                  let next := main_process_items gw call_tool rest h.messages
                    (final_text ++ h.fragments) r (calls + 1)
                  (next.1, h.events ++ [ev] ++ next.2)
          | none =>
              main_process_items gw call_tool rest messages final_text resp calls

/-- The `while True` loop of `main.py`'s `_process_response`, with the
hard-coded `MAX_TURNS` kept as a parameter (the source sets it to 10).
`turn_count` is the running counter.  An unrecognised stop reason matches
no branch and silently falls through to the turn counter. -/
def main_go (gw : GwStub) (call_tool : ToolStub) (MAX_TURNS : Nat)
    (turn_count : Nat) (resp : GatewayResponse) (messages : List Message)
    (final_text : List String) (calls : Nat) :
    Except Exc String × List Event :=
  match resp.stopReason with
  | none => (.error (.keyErr "stopReason"), [])
  | some sr =>
    if sr = "tool_use" then
      let final1 := final_text ++ ["received toolUse request"]
      match resp.outputMessageContent with
      | none => (.error (.keyErr "output"), [])
      | some items =>
          match main_process_items gw call_tool items messages final1 resp calls with
          | (.error e, evs) => (.error e, evs)
          | (.ok (m2, f2, r2, c2), evs) =>
              let tc := turn_count + 1
              if h : MAX_TURNS ≤ tc then
                (.ok (joinFrags (f2 ++ [limitMarker])), evs ++ [.turnIncr tc])
              else
                let next := main_go gw call_tool MAX_TURNS tc r2 m2 f2 c2
                (next.1, evs ++ [.turnIncr tc] ++ next.2)
    else if sr = "max_tokens" then
      (.ok (joinFrags (final_text ++ ["[Max tokens reached, ending conversation.]"])), [])
    else if sr = "stop_sequence" then
      (.ok (joinFrags (final_text ++ ["[Stop sequence reached, ending conversation.]"])), [])
    else if sr = "content_filtered" then
      (.ok (joinFrags (final_text ++ ["[Content filtered, ending conversation.]"])), [])
    else if sr = "end_turn" then
      match resp.outputMessageContent with
      | none => (.error (.keyErr "output"), [])
      | some [] => (.error (.err "list index out of range"), [])
      | some (item :: _) =>
          match item.text with
          | none => (.error (.keyErr "text"), [])
          | some t => (.ok (joinFrags (final_text ++ [t])), [])
    else
      let tc := turn_count + 1
      if h : MAX_TURNS ≤ tc then
        (.ok (joinFrags (final_text ++ [limitMarker])), [.turnIncr tc])
      else
        let next := main_go gw call_tool MAX_TURNS tc resp messages final_text calls
        (next.1, .turnIncr tc :: next.2)
termination_by MAX_TURNS - turn_count
decreasing_by all_goals omega

/-- `main.py` hard-codes `MAX_TURNS = 10` in `_process_response`. -/
def main_MAX_TURNS : Nat := 10

/-- `MCPClient._process_response` of `main.py`, `MAX_TURNS` as parameter;
`calls0` is the number of gateway calls already made (1 when reached
through `process_query`). -/
def main_process_response_core (gw : GwStub) (call_tool : ToolStub)
    (MAX_TURNS : Nat) (resp0 : GatewayResponse) (messages0 : List Message)
    (calls0 : Nat) : Except Exc String × List Event :=
  main_go gw call_tool MAX_TURNS 0 resp0 messages0 [] calls0

/-- `MCPClient._process_response` of `main.py` with the source value of
`MAX_TURNS`. -/
def main_process_response (gw : GwStub) (call_tool : ToolStub)
    (resp0 : GatewayResponse) (messages0 : List Message) (calls0 : Nat) :
    Except Exc String × List Event :=
  main_process_response_core gw call_tool main_MAX_TURNS resp0 messages0 calls0

/-- `MCPClient.process_query` of `main.py`, `MAX_TURNS` as parameter.
There is no blank-query check and no `try` block: a raising stub
propagates to the caller.  `list_tools` is the (per-query constant)
outcome of `session.list_tools()`. -/
def main_process_query_core (gw : GwStub) (call_tool : ToolStub)
    (list_tools : Except Exc (List SessionTool)) (query : String)
    (MAX_TURNS : Nat) : Except Exc String × List Event :=
  let messages := [Message.user query]
  match list_tools with
  | .error e => (.error e, [])
  | .ok tools =>
      let available_tools := tools.map fun t =>
        ToolDescriptor.mk t.name t.description t.inputSchema
      let bedrock_tools := Message.to_bedrock_format available_tools
      let ev := Event.gwCall messages
      match gw 0 messages with
      | .error e => (.error e, [ev])
      | .ok r =>
          let next := main_process_response_core gw call_tool MAX_TURNS r messages 1
          (next.1, ev :: next.2)

/-- `MCPClient.process_query` of `main.py` with the source `MAX_TURNS`. -/
def main_process_query (gw : GwStub) (call_tool : ToolStub)
    (list_tools : Except Exc (List SessionTool)) (query : String) :
    Except Exc String × List Event :=
  main_process_query_core gw call_tool list_tools query main_MAX_TURNS

/-! ## The defensive variant: `src/client/bedrock.py` -/

/-- Result of `bedrock.py`'s `_handle_tool_call`: the history and transcript
mutations performed, plus the exception escaping the call, if any (the
mutations performed before the raise survive, since the Python list is
mutated in place). -/
structure BHandleOut where
  messages : List Message
  fragments : List String
  events : List Event
  raised : Option Exc
  deriving Repr

/-- `MCPClient._handle_tool_call` of `bedrock.py`.  Every error-recovery
path builds `Message.tool_result(tool_use_id, [\x7b"text": error_msg\x7d])`, i.e.
passes a plain dict whose `.text` attribute access raises
`AttributeError`; for failures inside the `try` body the generic handler
appends the tool-request message a second time and then raises the same
way, so every non-success path escapes with `AttributeError` and appends
no tool-result message at all. -/
def bedrock_handle_tool_call (call_tool : ToolStub) (ti : ToolUseBlock)
    (messages : List Message) : BHandleOut :=
  let evs := [Event.toolCall ti.name ti.toolUseId ti.input messages]
  let req := Message.tool_request ti.toolUseId ti.name ti.input
  match call_tool ti.name ti.input with
  | .ok result =>
      let m1 := messages ++ [req]
      if result.content.isEmpty then
        -- building the empty-response tool_result raises AttributeError,
        -- the generic handler appends the request again and raises anew
        { messages := m1 ++ [req], fragments := [], events := evs,
          raised := some (.err attrErrDict) }
      else
        match Message.tool_result ti.toolUseId result.content with
        | .ok res =>
            { messages := m1 ++ [res],
              fragments := [s!"[Calling tool {ti.name} with args {ti.input}]"],
              events := evs, raised := none }
        | .error _ =>
            { messages := m1 ++ [req], fragments := [], events := evs,
              raised := some (.err attrErrDict) }
  | .error _ =>
      -- each except arm appends the request, then raises AttributeError
      -- while building the error tool_result from a plain dict
      { messages := messages ++ [req], fragments := [], events := evs,
        raised := some (.err attrErrDict) }

/-- Outcome of the content `for` loop of `bedrock.py`: either it ran to
completion or broke out (both continue the `while` loop), or an exception
from `_handle_tool_call` escaped it. -/
inductive BItemsStatus where
  | ok (messages : List Message) (final : List String)
      (resp : GatewayResponse) (calls : Nat)
  | raised (e : Exc)

/-- The content `for` loop of `bedrock.py`'s `_process_response`.  The
follow-up gateway request is wrapped in its own `try`: on failure an error
fragment is appended and the `for` loop (only) breaks, keeping the current
`response`. -/
def bedrock_process_items (gw : GwStub) (call_tool : ToolStub) :
    List RespItem → List Message → List String → GatewayResponse → Nat →
    BItemsStatus × List Event
  | [], messages, final, resp, calls => (.ok messages final resp calls, [])
  | item :: rest, messages, final, resp, calls =>
      match item.text with
      | some t =>
          bedrock_process_items gw call_tool rest
            (messages ++ [Message.assistant t])
            (final ++ [s!"[Thinking: {t}]"]) resp calls
      | none =>
          match item.toolUse with
          | some ti =>
              let h := bedrock_handle_tool_call call_tool ti messages
              match h.raised with
              | some e => (.raised e, h.events)
              | none =>
                  let final2 := final ++ h.fragments
                  let ev := Event.gwCall h.messages
                  match gw calls h.messages with
                  | .ok r =>
                      let next := bedrock_process_items gw call_tool rest
                        h.messages final2 r (calls + 1)
                      (next.1, h.events ++ [ev] ++ next.2)
                  | .error e =>
                      let m := e.str
                      (.ok h.messages
                        (final2 ++ [s!"[Error during follow-up request: {m}]"])
                        resp (calls + 1), h.events ++ [ev])
          | none =>
              bedrock_process_items gw call_tool rest messages final resp calls

/-- The `while True` loop of `bedrock.py`'s `_process_response` (inside its
`try`).  Unlike `main.py` it has a format guard in the `tool_use` branch,
guarded `end_turn` extraction, and an `else` branch surfacing unknown stop
reasons.  A `.error` result is an exception reaching the surrounding
`except` clauses. -/
def bedrock_go (gw : GwStub) (call_tool : ToolStub) (MAX_TURNS : Nat)
    (turn_count : Nat) (resp : GatewayResponse) (messages : List Message)
    (final_text : List String) (calls : Nat) :
    Except Exc String × List Event :=
  match resp.stopReason with
  | none => (.error (.keyErr "stopReason"), [])
  | some sr =>
    if sr = "tool_use" then
      let final1 := final_text ++ ["received toolUse request"]
      match resp.outputMessageContent with
      | none =>
          (.ok (joinFrags (final1 ++ ["[Error: Invalid tool use request format]"])), [])
      | some items =>
          match bedrock_process_items gw call_tool items messages final1 resp calls with
          | (.raised e, evs) => (.error e, evs)
          | (.ok m2 f2 r2 c2, evs) =>
              let tc := turn_count + 1
              if h : MAX_TURNS ≤ tc then
                (.ok (joinFrags (f2 ++ [limitMarker])), evs ++ [.turnIncr tc])
              else
                let next := bedrock_go gw call_tool MAX_TURNS tc r2 m2 f2 c2
                (next.1, evs ++ [.turnIncr tc] ++ next.2)
    else if sr = "max_tokens" then
      (.ok (joinFrags (final_text ++ ["[Max tokens reached, ending conversation.]"])), [])
    else if sr = "stop_sequence" then
      (.ok (joinFrags (final_text ++ ["[Stop sequence reached, ending conversation.]"])), [])
    else if sr = "content_filtered" then
      (.ok (joinFrags (final_text ++ ["[Content filtered, ending conversation.]"])), [])
    else if sr = "end_turn" then
      match resp.outputMessageContent with
      | some (item :: rest) =>
          match item.text with
          | some t => (.ok (joinFrags (final_text ++ [t])), [])
          | none =>
              (.ok (joinFrags (final_text ++ ["[Response contains no text]"])), [])
      | some [] =>
          (.ok (joinFrags (final_text ++ ["[Error: Invalid response format]"])), [])
      | none =>
          (.ok (joinFrags (final_text ++ ["[Error: Invalid response format]"])), [])
    else
      (.ok (joinFrags (final_text ++ [s!"[Unknown stop reason: {sr}]"])), [])
termination_by MAX_TURNS - turn_count
decreasing_by all_goals omega

/-- `bedrock.py` hard-codes `MAX_TURNS = 100` in `_process_response`. -/
def bedrock_MAX_TURNS : Nat := 100

/-- `MCPClient._process_response` of `bedrock.py`: the pre-loop structure
check, the loop, and its `except KeyError` / `except Exception` clauses
turning any escaping exception into an error transcript (the fragments
accumulated so far are discarded).  The `if not response` guard is not
modelled separately: the stub always returns a (truthy) response object. -/
def bedrock_process_response_core (gw : GwStub) (call_tool : ToolStub)
    (MAX_TURNS : Nat) (resp0 : GatewayResponse) (messages0 : List Message)
    (calls0 : Nat) : String × List Event :=
  match resp0.stopReason with
  | none => ("エラー: AIモデルからの応答が不正な形式です。", [])
  | some _ =>
      match bedrock_go gw call_tool MAX_TURNS 0 resp0 messages0 [] calls0 with
      | (.ok s, evs) => (s, evs)
      | (.error (.keyErr m), evs) =>
          (s!"エラー: レスポンス処理中に問題が発生しました: {m}", evs)
      | (.error e, evs) =>
          let m := e.str
          (s!"エラー: レスポンス処理中に予期しないエラーが発生: {m}", evs)

/-- `MCPClient._process_response` of `bedrock.py` with the source value of
`MAX_TURNS`. -/
def bedrock_process_response (gw : GwStub) (call_tool : ToolStub)
    (resp0 : GatewayResponse) (messages0 : List Message) (calls0 : Nat) :
    String × List Event :=
  bedrock_process_response_core gw call_tool bedrock_MAX_TURNS resp0 messages0 calls0

/-- The blank-query test `not query or not query.strip()`: true iff the
query is empty or consists of whitespace only.  (CPython strips a few
more Unicode whitespace code points; the difference is immaterial to the
checked behaviour.) -/
def isBlankQuery (query : String) : Bool :=
  query.data.all Char.isWhitespace

/-- `MCPClient.process_query` of `bedrock.py`: blank-query and session
checks, the zero-tools early return, and the outer
`except asyncio.TimeoutError` / `except Exception` clauses.  `session`
records whether `connect_to_server` succeeded.  The function always
returns a transcript string: no exception escapes. -/
def bedrock_process_query_core (gw : GwStub) (call_tool : ToolStub)
    (list_tools : Except Exc (List SessionTool)) (session : Bool)
    (query : String) (MAX_TURNS : Nat) : String × List Event :=
  if isBlankQuery query then
    ("クエリが空です。質問や指示を入力してください。", [])
  else if !session then
    ("エラー: サーバーとの接続が確立されていません。", [])
  else
    let messages := [Message.user query]
    match list_tools with
    | .error (.timeoutErr _) => ("エラー: リクエスト処理がタイムアウトしました", [])
    | .error e =>
        let m := e.str
        (s!"エラー: クエリ処理中にエラーが発生: {m}", [])
    | .ok tools =>
        let available_tools := tools.map fun t =>
          ToolDescriptor.mk t.name t.description t.inputSchema
        if available_tools.isEmpty then
          ("警告: サーバーに利用可能なツールがありません。サーバーの設定を確認してください。", [])
        else
          let bedrock_tools := Message.to_bedrock_format available_tools
          let ev := Event.gwCall messages
          match gw 0 messages with
          | .error (.timeoutErr _) =>
              ("エラー: リクエスト処理がタイムアウトしました", [ev])
          | .error e =>
              let m := e.str
              (s!"エラー: クエリ処理中にエラーが発生: {m}", [ev])
          | .ok r =>
              let next := bedrock_process_response_core gw call_tool MAX_TURNS r messages 1
              (next.1, ev :: next.2)

/-- `MCPClient.process_query` of `bedrock.py` with the source `MAX_TURNS`. -/
def bedrock_process_query (gw : GwStub) (call_tool : ToolStub)
    (list_tools : Except Exc (List SessionTool)) (session : Bool)
    (query : String) : String × List Event :=
  bedrock_process_query_core gw call_tool list_tools session query bedrock_MAX_TURNS

/-! ## Concrete stub instances used in scenario theorems -/

/-- A trivial tool block, as in the turn-limit scenario. -/
def trivialToolBlock : ToolUseBlock :=
  { toolUseId := "t1", name := "trivial", input := "args" }

/-- A response whose only content item is one trivial tool block. -/
def respOneToolUse : GatewayResponse :=
  { stopReason := some "tool_use",
    outputMessageContent := some [{ text := none, toolUse := some trivialToolBlock }] }

/-- An adversarial gateway stub that always requests the trivial tool. -/
def gwAlwaysToolUse : GwStub := fun _ _ => .ok respOneToolUse

/-- A response terminating the turn with the text "Hello". -/
def respHello : GatewayResponse :=
  { stopReason := some "end_turn",
    outputMessageContent := some [{ text := some "Hello", toolUse := none }] }

/-- A benign gateway stub that always answers "Hello". -/
def gwHello : GwStub := fun _ _ => .ok respHello

/-- A tool host stub whose every call succeeds with one text block. -/
def ctTrivialOk : ToolStub := fun _ _ => .ok { content := [.mcp (some "ok")] }

/-- A tool host stub whose every call raises a timeout. -/
def ctRaisesTimeout : ToolStub := fun _ _ => .error (.timeoutErr "timed out")

/-- A session exposing one tool. -/
def oneSessionTool : SessionTool :=
  { name := "trivial", description := "a trivial tool",
    inputSchema := { properties := "p", required := [] } }

/-- `list_tools` outcome with one descriptor. -/
def ltOneTool : Except Exc (List SessionTool) := .ok [oneSessionTool]

/-- `list_tools` outcome with an empty descriptor list. -/
def ltNoTools : Except Exc (List SessionTool) := .ok []

/-- A sequence of turn-counter values that never decreases. -/
def TurnsIncreasing (l : List Nat) : Prop :=
  ∀ i j a b, i ≤ j → l.get? i = some a → l.get? j = some b → a ≤ b

/-- `k` consecutive naturals starting at `a`: the shape of the turn-counter
trace of a loop run. -/
def rangeFrom (a : Nat) : Nat → List Nat
  | 0 => []
  | k + 1 => a :: rangeFrom (a + 1) k

/-! ## Helper lemmas -/

/-- Joining a single fragment is that fragment. -/
theorem joinFrags_single (s : String) : joinFrags [s] = s := by
  simp [joinFrags, String.intercalate, String.intercalate.go]

/-- `turnVals` distributes over trace concatenation. -/
theorem turnVals_append (l1 l2 : List Event) :
    turnVals (l1 ++ l2) = turnVals l1 ++ turnVals l2 := by
  simp [turnVals]

/-- `gwCount` distributes over trace concatenation. -/
theorem gwCount_append (l1 l2 : List Event) :
    gwCount (l1 ++ l2) = gwCount l1 + gwCount l2 := by
  simp [gwCount, List.countP_append]

/-- `main.py`'s tool dispatch records exactly the tool host call. -/
theorem main_handle_tool_call_events (ct : ToolStub) (ti : ToolUseBlock)
    (m : List Message) :
    (main_handle_tool_call ct ti m).events =
      [Event.toolCall ti.name ti.toolUseId ti.input m] := by
  unfold main_handle_tool_call
  split <;> first
  | rfl
  | (split <;> rfl)

/-- `bedrock.py`'s tool dispatch records exactly the tool host call. -/
theorem bedrock_handle_tool_call_events (ct : ToolStub) (ti : ToolUseBlock)
    (m : List Message) :
    (bedrock_handle_tool_call ct ti m).events =
      [Event.toolCall ti.name ti.toolUseId ti.input m] := by
  unfold bedrock_handle_tool_call
  split
  · split
    · rfl
    · split <;> rfl
  · rfl

/-! ## Claim theorems -/

/-- C8: the schema translator `Message.to_bedrock_format` is a pure
function preserving length and order; the i-th output carries the i-th
input's name, description, `input_schema.properties` and
`input_schema.required` unchanged inside the nested
`toolSpec`/`inputSchema`/`json` envelope with type `"object"`; nothing is
validated or repaired. -/
theorem C8_schema_translator (tools_list : List ToolDescriptor) :
    (Message.to_bedrock_format tools_list).length = tools_list.length ∧
    ∀ i : Nat, (Message.to_bedrock_format tools_list).get? i =
      (tools_list.get? i).map fun tool =>
        { toolSpec :=
            { name := tool.name,
              description := tool.description,
              inputSchema :=
                { json :=
                    { type := "object",
                      properties := tool.input_schema.properties,
                      required := tool.input_schema.required } } } } := by
  constructor
  · simp [Message.to_bedrock_format]
  · intro i
    simp [Message.to_bedrock_format, List.getElem?_map, List.get?_eq_getElem?]

/-- C10: a tool-result message is built from the text of the first content
block only, wrapped as `json`/`text` under role `"user"`; the remaining
blocks are discarded (the result does not depend on them). -/
theorem C10_tool_result_first_block_only (tool_use_id t : String)
    (rest : List ResultItem) :
    Message.tool_result tool_use_id (.mcp (some t) :: rest) =
      .ok { role := "user",
            content := [.toolResult tool_use_id [.jsonText t]] } ∧
    ∀ (c : ResultItem) (rest2 : List ResultItem),
      Message.tool_result tool_use_id (c :: rest) =
        Message.tool_result tool_use_id (c :: rest2) := by
  constructor
  · rfl
  · intro c rest2
    cases c with
    | mcp o => cases o <;> rfl
    | dict d => rfl

/-- C1 (code bug): when a dispatched tool call fails (here: a timeout),
the defensive variant appends the tool-request message but no tool-result
message at all: every error-recovery arm of `_handle_tool_call` builds
`Message.tool_result` from a plain dict, whose `.text` attribute access
raises `AttributeError`, so the whole query aborts with a generic error
transcript (a single gateway call, no re-invocation) and the history is
left with an unpaired `toolUse`; the plain variant appends neither
request nor result and carries on.  This theorem evaluates both variants
at the failing input. -/
theorem C1_tool_failure_breaks_pairing :
    (bedrock_handle_tool_call ctRaisesTimeout trivialToolBlock []).raised =
      some (.err attrErrDict) ∧
    toolResultCount "t1"
      (bedrock_handle_tool_call ctRaisesTimeout trivialToolBlock []).messages = 0 ∧
    toolUseCount "t1"
      (bedrock_handle_tool_call ctRaisesTimeout trivialToolBlock []).messages = 1 ∧
    (bedrock_process_query gwAlwaysToolUse ctRaisesTimeout ltOneTool true "go").1 =
      "エラー: レスポンス処理中に予期しないエラーが発生: dict object has no attribute text" ∧
    gwCount (bedrock_process_query gwAlwaysToolUse ctRaisesTimeout ltOneTool true "go").2 = 1 ∧
    (main_handle_tool_call ctRaisesTimeout trivialToolBlock []).messages = [] := by
  refine ⟨rfl, rfl, rfl, ?_, ?_, rfl⟩
  · simp only [bedrock_process_query, bedrock_process_query_core, bedrock_process_response_core,
      bedrock_go, bedrock_process_items, bedrock_handle_tool_call, bedrock_MAX_TURNS,
      gwAlwaysToolUse, ctRaisesTimeout, ltOneTool, respOneToolUse, trivialToolBlock,
      oneSessionTool, Message.tool_result, Exc.str, attrErrDict, isBlankQuery]
    rfl
  · simp [bedrock_process_query, bedrock_process_query_core, bedrock_process_response_core,
      bedrock_go, bedrock_process_items, bedrock_handle_tool_call, bedrock_MAX_TURNS,
      gwAlwaysToolUse, ctRaisesTimeout, ltOneTool, respOneToolUse, trivialToolBlock,
      oneSessionTool, Message.tool_result, Exc.str, gwCount, isBlankQuery]

/-- C2 counterexample: with `MAX_TURNS = 2` and a gateway that always
returns a single trivial `ToolUse` block, processing one query makes
3 gateway calls (the initial call of `process_query` plus one
re-invocation per loop turn), not 2 as claimed. -/
theorem C2_counterexample_three_calls :
    gwCount (main_process_query_core gwAlwaysToolUse ctTrivialOk ltOneTool "go" 2).2 = 3 ∧
    ¬ gwCount (main_process_query_core gwAlwaysToolUse ctTrivialOk ltOneTool "go" 2).2 = 2 := by
  have h : gwCount (main_process_query_core gwAlwaysToolUse ctTrivialOk ltOneTool "go" 2).2 = 3 := by
    simp [main_process_query_core, main_process_response_core, main_go, main_process_items,
      main_handle_tool_call, gwAlwaysToolUse, ctTrivialOk, ltOneTool, respOneToolUse,
      trivialToolBlock, oneSessionTool, Message.tool_result, gwCount]
  exact ⟨h, by omega⟩

/-- C3 counterexample: `main.py`'s `process_query` has no blank-query
check: the whitespace query `"   "` is sent to the gateway (one call)
and no input-error message is produced. -/
theorem C3_counterexample_main_blank_query :
    gwCount (main_process_query gwHello ctTrivialOk ltNoTools "   ").2 = 1 ∧
    (main_process_query gwHello ctTrivialOk ltNoTools "   ").1 = .ok "Hello" := by
  constructor
  · simp [main_process_query, main_process_query_core, main_process_response_core, main_go,
      main_MAX_TURNS, gwHello, respHello, ltNoTools, gwCount]
  · simp [main_process_query, main_process_query_core, main_process_response_core, main_go,
      main_MAX_TURNS, gwHello, respHello, ltNoTools, joinFrags, String.intercalate,
      String.intercalate.go]

/-- C4 counterexample: with an empty tool list the defensive variant does
NOT proceed to call the gateway: it returns the warning immediately, with
zero gateway calls. -/
theorem C4_counterexample_zero_tools_no_gateway :
    (bedrock_process_query gwHello ctTrivialOk ltNoTools true "hi").1 =
      "警告: サーバーに利用可能なツールがありません。サーバーの設定を確認してください。" ∧
    gwCount (bedrock_process_query gwHello ctTrivialOk ltNoTools true "hi").2 = 0 := by
  constructor
  · simp [bedrock_process_query, bedrock_process_query_core, ltNoTools, isBlankQuery]
  · simp [bedrock_process_query, bedrock_process_query_core, ltNoTools, isBlankQuery, gwCount]

/-- C5 counterexample: for an `end_turn` response whose first content
block is not a text block but whose second is the text `"Hello"`, the
loop does not append that first text block: the defensive variant reports
the no-text diagnostic (only `content[0]` is examined). -/
theorem C5_counterexample_first_block_not_text :
    (bedrock_process_response gwHello ctTrivialOk
      { stopReason := some "end_turn",
        outputMessageContent := some
          [{ text := none, toolUse := some trivialToolBlock },
           { text := some "Hello", toolUse := none }] } [] 1).1 =
      "[Response contains no text]" ∧
    ¬ (bedrock_process_response gwHello ctTrivialOk
      { stopReason := some "end_turn",
        outputMessageContent := some
          [{ text := none, toolUse := some trivialToolBlock },
           { text := some "Hello", toolUse := none }] } [] 1).1 = "Hello" := by
  have h : (bedrock_process_response gwHello ctTrivialOk
      { stopReason := some "end_turn",
        outputMessageContent := some
          [{ text := none, toolUse := some trivialToolBlock },
           { text := some "Hello", toolUse := none }] } [] 1).1 =
      "[Response contains no text]" := by
    simp [bedrock_process_response, bedrock_process_response_core, bedrock_go,
      bedrock_MAX_TURNS, joinFrags, String.intercalate, String.intercalate.go]
  refine ⟨h, fun hc => ?_⟩
  rw [h] at hc
  exact absurd hc (by decide)

/-- C6 counterexample: in `main.py` an unrecognised stop reason is not
terminal and is silently swallowed: the string `"weird"` matches no
branch, the loop spins to the turn limit (10 turn increments) and the
transcript is only the limit marker, never mentioning `"weird"`. -/
theorem C6_counterexample_main_unknown_swallowed :
    (main_process_response gwHello ctTrivialOk
      { stopReason := some "weird", outputMessageContent := none } [] 1).1 =
      .ok limitMarker ∧
    turnVals (main_process_response gwHello ctTrivialOk
      { stopReason := some "weird", outputMessageContent := none } [] 1).2 =
      [1, 2, 3, 4, 5, 6, 7, 8, 9, 10] ∧
    ¬ ("weird".data <:+: limitMarker.data) := by
  refine ⟨?_, ?_, by decide⟩
  · simp [main_process_response, main_process_response_core, main_go, main_MAX_TURNS,
      joinFrags, String.intercalate, String.intercalate.go]
  · simp [main_process_response, main_process_response_core, main_go, main_MAX_TURNS, turnVals]

/-- C9 counterexample: the blank-query rejection is a failure path whose
user-facing message is not prefixed with the error marker `エラー`. -/
theorem C9_counterexample_blank_message_unprefixed :
    (bedrock_process_query gwHello ctTrivialOk ltOneTool true "").1 =
      "クエリが空です。質問や指示を入力してください。" ∧
    ¬ ("エラー".data <+:
        (bedrock_process_query gwHello ctTrivialOk ltOneTool true "").1.data) := by
  have h : (bedrock_process_query gwHello ctTrivialOk ltOneTool true "").1 =
      "クエリが空です。質問や指示を入力してください。" := by
    simp [bedrock_process_query, bedrock_process_query_core, isBlankQuery]
  refine ⟨h, fun hc => ?_⟩
  rw [h] at hc
  exact absurd hc (by decide)

/-- C3 (amended): in the defensive variant, a blank or whitespace-only
query is rejected immediately with the fixed input-error message: no
gateway call, no tool host call, no event at all (`main.py` performs no
such check, see the counterexample). -/
theorem C3_bedrock_blank_query_rejected (gw : GwStub) (ct : ToolStub)
    (lt : Except Exc (List SessionTool)) (session : Bool) (q : String)
    (mt : Nat) (h : isBlankQuery q = true) :
    bedrock_process_query_core gw ct lt session q mt =
      ("クエリが空です。質問や指示を入力してください。", []) := by
  simp [bedrock_process_query_core, h]

/-- Witness for C3: the whitespace query of the scenario. -/
theorem C3_witness :
    bedrock_process_query_core gwHello ctTrivialOk ltOneTool true "   " 100 =
      ("クエリが空です。質問や指示を入力してください。", []) :=
  C3_bedrock_blank_query_rejected gwHello ctTrivialOk ltOneTool true "   " 100
    (by decide)

/-- C4 (amended): with an empty descriptor list the defensive variant
reports the warning and returns immediately: a non-empty transcript,
zero gateway calls and zero tool host calls; the plain variant instead
proceeds to call the gateway (at least one call attempt) without any
warning. -/
theorem C4_zero_tools_behavior :
    (∀ (gw : GwStub) (ct : ToolStub) (q : String) (mt : Nat),
      isBlankQuery q = false →
      bedrock_process_query_core gw ct (.ok []) true q mt =
        ("警告: サーバーに利用可能なツールがありません。サーバーの設定を確認してください。", [])) ∧
    (∀ (gw : GwStub) (ct : ToolStub) (tools : List SessionTool) (q : String)
      (mt : Nat),
      1 ≤ gwCount (main_process_query_core gw ct (.ok tools) q mt).2) := by
  constructor
  · intro gw ct q mt h
    simp [bedrock_process_query_core, h]
  · intro gw ct tools q mt
    unfold main_process_query_core
    cases hgw : gw 0 [Message.user q] with
    | error e => simp [hgw, gwCount]
    | ok r => simp [hgw, gwCount, List.countP_cons]

/-- Witness for C4. -/
theorem C4_witness :
    bedrock_process_query_core gwHello ctTrivialOk (.ok []) true "hi" 100 =
      ("警告: サーバーに利用可能なツールがありません。サーバーの設定を確認してください。", []) ∧
    1 ≤ gwCount (main_process_query_core gwHello ctTrivialOk (.ok []) "hi" 10).2 :=
  ⟨C4_zero_tools_behavior.1 gwHello ctTrivialOk "hi" 100 (by decide),
   C4_zero_tools_behavior.2 gwHello ctTrivialOk [] "hi" 10⟩

/-- C5 (amended): for an `end_turn` response the defensive loop is
terminal with no further calls, and examines only the first content
block: if it carries text, that text is the final fragment; if it does
not (or the content is empty or missing), a malformed-response
diagnostic is the final fragment — even when a text block occurs later
(see the counterexample).  In `main.py` the unguarded extraction raises
instead of producing a diagnostic. -/
theorem C5_end_turn_first_block (gw : GwStub) (ct : ToolStub) (mt : Nat)
    (msgs : List Message) (calls : Nat) :
    (∀ (item : RespItem) (rest : List RespItem) (t : String),
      item.text = some t →
      bedrock_process_response_core gw ct mt
        { stopReason := some "end_turn",
          outputMessageContent := some (item :: rest) } msgs calls = (t, [])) ∧
    (∀ (item : RespItem) (rest : List RespItem),
      item.text = none →
      bedrock_process_response_core gw ct mt
        { stopReason := some "end_turn",
          outputMessageContent := some (item :: rest) } msgs calls =
        ("[Response contains no text]", [])) ∧
    (bedrock_process_response_core gw ct mt
        { stopReason := some "end_turn", outputMessageContent := some [] }
        msgs calls = ("[Error: Invalid response format]", [])) ∧
    (bedrock_process_response_core gw ct mt
        { stopReason := some "end_turn", outputMessageContent := none }
        msgs calls = ("[Error: Invalid response format]", [])) ∧
    (∀ (item : RespItem) (rest : List RespItem) (t : String),
      item.text = some t →
      main_process_response_core gw ct mt
        { stopReason := some "end_turn",
          outputMessageContent := some (item :: rest) } msgs calls = (.ok t, [])) ∧
    (∀ (item : RespItem) (rest : List RespItem),
      item.text = none →
      main_process_response_core gw ct mt
        { stopReason := some "end_turn",
          outputMessageContent := some (item :: rest) } msgs calls =
        (.error (.keyErr "text"), [])) := by
  refine ⟨?_, ?_, ?_, ?_, ?_, ?_⟩
  · intro item rest t h
    simp [bedrock_process_response_core, bedrock_go, h, joinFrags_single]
  · intro item rest h
    simp [bedrock_process_response_core, bedrock_go, h, joinFrags_single]
  · simp [bedrock_process_response_core, bedrock_go, joinFrags_single]
  · simp [bedrock_process_response_core, bedrock_go, joinFrags_single]
  · intro item rest t h
    simp [main_process_response_core, main_go, h, joinFrags_single]
  · intro item rest h
    simp [main_process_response_core, main_go, h]

/-- Witness for C5: the scenario-B response. -/
theorem C5_witness :
    bedrock_process_response_core gwHello ctTrivialOk 100
      { stopReason := some "end_turn",
        outputMessageContent := some [{ text := some "Hello", toolUse := none }] }
      [] 1 = ("Hello", []) :=
  (C5_end_turn_first_block gwHello ctTrivialOk 100 [] 1).1
    { text := some "Hello", toolUse := none } [] "Hello" rfl

/-- C6 (amended): in the defensive variant an unrecognised stop reason is
terminal — the loop returns at once, with no further gateway or tool
calls and no turn increment — and the unknown string is surfaced
verbatim in the diagnostic fragment.  (`main.py` has no such branch and
silently retries until the turn limit, see the counterexample.) -/
theorem C6_bedrock_unknown_stop_reason (gw : GwStub) (ct : ToolStub)
    (mt : Nat) (msgs : List Message) (calls : Nat) (sr : String)
    (c : Option (List RespItem))
    (h1 : sr ≠ "tool_use") (h2 : sr ≠ "max_tokens") (h3 : sr ≠ "stop_sequence")
    (h4 : sr ≠ "content_filtered") (h5 : sr ≠ "end_turn") :
    bedrock_process_response_core gw ct mt
      { stopReason := some sr, outputMessageContent := c } msgs calls =
      (s!"[Unknown stop reason: {sr}]", []) := by
  simp [bedrock_process_response_core, bedrock_go, h1, h2, h3, h4, h5, joinFrags_single]

/-- Witness for C6: the unknown stop reason `"weird"`. -/
theorem C6_witness :
    bedrock_process_response_core gwHello ctTrivialOk 100
      { stopReason := some "weird", outputMessageContent := none } [] 1 =
      ("[Unknown stop reason: weird]", []) := by
  have h := C6_bedrock_unknown_stop_reason gwHello ctTrivialOk 100 [] 1 "weird" none
    (by decide) (by decide) (by decide) (by decide) (by decide)
  simpa using h

theorem gwCount_nil : gwCount [] = 0 := rfl

theorem gwCount_toolCall (n id : String) (inp : JsonVal) (b : List Message) :
    gwCount [Event.toolCall n id inp b] = 0 := rfl

theorem gwCount_gwCall (h : List Message) : gwCount [Event.gwCall h] = 1 := rfl

theorem turnVals_nil : turnVals [] = [] := rfl

theorem turnVals_toolCall (n id : String) (inp : JsonVal) (b : List Message) :
    turnVals [Event.toolCall n id inp b] = [] := rfl

theorem turnVals_gwCall (h : List Message) : turnVals [Event.gwCall h] = [] := rfl

theorem turnVals_turnIncr (n : Nat) : turnVals [Event.turnIncr n] = [n] := rfl

theorem dispatchedBlocks_cons_text (item : RespItem) (rest : List RespItem)
    (t : String) (hx : item.text = some t) :
    dispatchedBlocks (item :: rest) = dispatchedBlocks rest := by
  simp [dispatchedBlocks, hx]

theorem dispatchedBlocks_cons_skip (item : RespItem) (rest : List RespItem)
    (hx : item.text = none) (hu : item.toolUse = none) :
    dispatchedBlocks (item :: rest) = dispatchedBlocks rest := by
  simp [dispatchedBlocks, hx, hu]

theorem dispatchedBlocks_cons_tool (item : RespItem) (rest : List RespItem)
    (ti : ToolUseBlock) (hx : item.text = none) (hu : item.toolUse = some ti) :
    dispatchedBlocks (item :: rest) = ti :: dispatchedBlocks rest := by
  simp [dispatchedBlocks, hx, hu]

theorem turnVals_main_process_items (gw : GwStub) (ct : ToolStub) :
    ∀ (items : List RespItem) (msgs : List Message) (fin : List String)
      (resp : GatewayResponse) (calls : Nat),
    turnVals (main_process_items gw ct items msgs fin resp calls).2 = [] := by
  intro items
  induction items with
  | nil => intro msgs fin resp calls; rw [main_process_items]; exact turnVals_nil
  | cons item rest ih =>
      intro msgs fin resp calls
      rw [main_process_items]
      cases hx : item.text with
      | some t => exact ih ..
      | none =>
          cases hu : item.toolUse with
          | none => exact ih ..
          | some ti =>
              cases hgw : gw calls (main_handle_tool_call ct ti msgs).messages with
              | error e =>
                  simp only []
                  rw [hgw]
                  simp only []
                  rw [turnVals_append, main_handle_tool_call_events]
                  rfl
              | ok r =>
                  simp only []
                  rw [hgw]
                  simp only []
                  rw [turnVals_append, turnVals_append, main_handle_tool_call_events]
                  rw [ih ..]
                  rfl

theorem gwCount_main_process_items (gw : GwStub) (ct : ToolStub) :
    ∀ (items : List RespItem) (msgs : List Message) (fin : List String)
      (resp : GatewayResponse) (calls : Nat),
    gwCount (main_process_items gw ct items msgs fin resp calls).2 ≤
      (dispatchedBlocks items).length := by
  intro items
  induction items with
  | nil => intro msgs fin resp calls; rw [main_process_items]; simp [gwCount_nil]
  | cons item rest ih =>
      intro msgs fin resp calls
      rw [main_process_items]
      cases hx : item.text with
      | some t => rw [dispatchedBlocks_cons_text item rest t hx]; exact ih ..
      | none =>
          cases hu : item.toolUse with
          | none => rw [dispatchedBlocks_cons_skip item rest hx hu]; exact ih ..
          | some ti =>
              rw [dispatchedBlocks_cons_tool item rest ti hx hu]
              simp only []
              cases hgw : gw calls (main_handle_tool_call ct ti msgs).messages with
              | error e =>
                  simp only []
                  rw [gwCount_append, main_handle_tool_call_events, gwCount_toolCall,
                    gwCount_gwCall]
                  simp
              | ok r =>
                  simp only []
                  rw [gwCount_append, gwCount_append, main_handle_tool_call_events,
                    gwCount_toolCall, gwCount_gwCall]
                  have := ih (main_handle_tool_call ct ti msgs).messages
                    (fin ++ (main_handle_tool_call ct ti msgs).fragments) r (calls + 1)
                  simp only [List.length_cons]
                  omega

theorem main_process_items_resp_origin (gw : GwStub) (ct : ToolStub) :
    ∀ (items : List RespItem) (msgs : List Message) (fin : List String)
      (resp : GatewayResponse) (calls : Nat)
      (m2 : List Message) (f2 : List String) (r2 : GatewayResponse) (c2 : Nat),
    (main_process_items gw ct items msgs fin resp calls).1 = .ok (m2, f2, r2, c2) →
    r2 = resp ∨ ∃ n h, gw n h = .ok r2 := by
  intro items
  induction items with
  | nil =>
      intro msgs fin resp calls m2 f2 r2 c2 h
      rw [main_process_items] at h
      simp only [Except.ok.injEq, Prod.mk.injEq] at h
      exact .inl h.2.2.1.symm
  | cons item rest ih =>
      intro msgs fin resp calls m2 f2 r2 c2 h
      rw [main_process_items] at h
      cases hx : item.text with
      | some t => rw [hx] at h; exact ih _ _ _ _ _ _ _ _ h
      | none =>
          rw [hx] at h
          cases hu : item.toolUse with
          | none => rw [hu] at h; exact ih _ _ _ _ _ _ _ _ h
          | some ti =>
              rw [hu] at h
              simp only [] at h
              cases hgw : gw calls (main_handle_tool_call ct ti msgs).messages with
              | error e => rw [hgw] at h; simp at h
              | ok r =>
                  rw [hgw] at h
                  simp only [] at h
                  rcases ih _ _ _ _ _ _ _ _ h with h1 | h1
                  · exact .inr ⟨calls, (main_handle_tool_call ct ti msgs).messages, h1 ▸ hgw⟩
                  · exact .inr h1

theorem rangeFrom_get? (k : Nat) : ∀ (a i : Nat),
    (rangeFrom a k).get? i = if i < k then some (a + i) else none := by
  induction k with
  | zero => intro a i; simp [rangeFrom]
  | succ k ih =>
      intro a i
      cases i with
      | zero => simp [rangeFrom]
      | succ i =>
          simp only [rangeFrom, List.get?_cons_succ, ih]
          by_cases h : i < k
          · simp [h, Nat.lt_succ_of_lt, show i + 1 < k + 1 from by omega]
            omega
          · simp [h, show ¬ (i + 1 < k + 1) from by omega]

theorem turnVals_main_go (gw : GwStub) (ct : ToolStub) (mt : Nat)
    (tc : Nat) (resp : GatewayResponse) (msgs : List Message)
    (fin : List String) (calls : Nat) :
    ∃ k, turnVals (main_go gw ct mt tc resp msgs fin calls).2 = rangeFrom (tc + 1) k := by
  induction tc, resp, msgs, fin, calls using main_go.induct gw ct mt with
  | case1 tc resp msgs fin calls hsr =>
      exact ⟨0, by rw [main_go, hsr]; rfl⟩
  | case2 tc resp msgs fin calls hout hsr =>
      exact ⟨0, by rw [main_go, hsr]; simp only [reduceIte]; rw [hout]; rfl⟩
  | case3 tc resp msgs fin calls final1 items hout e evs hitems hsr =>
      refine ⟨0, ?_⟩
      rw [main_go, hsr]
      simp only [reduceIte]
      rw [hout]
      simp only []
      have hitems2 : main_process_items gw ct items msgs
          (fin ++ ["received toolUse request"]) resp calls = (Except.error e, evs) := hitems
      rw [hitems2]
      have h2 := turnVals_main_process_items gw ct items msgs
        (fin ++ ["received toolUse request"]) resp calls
      rw [hitems2] at h2
      exact h2
  | case4 tc resp msgs fin calls final1 items hout m2 f2 r2 c2 evs hitems tcl hle hsr =>
      refine ⟨1, ?_⟩
      rw [main_go, hsr]
      simp only [reduceIte]
      rw [hout]
      simp only []
      have hitems2 : main_process_items gw ct items msgs
          (fin ++ ["received toolUse request"]) resp calls =
          (Except.ok (m2, f2, r2, c2), evs) := hitems
      rw [hitems2]
      simp only [dif_pos hle]
      rw [turnVals_append]
      have h2 := turnVals_main_process_items gw ct items msgs
        (fin ++ ["received toolUse request"]) resp calls
      rw [hitems2] at h2
      rw [h2]
      rfl
  | case5 tc resp msgs fin calls final1 items hout m2 f2 r2 c2 evs hitems tcl hlt hsr ih =>
      obtain ⟨k, hk⟩ := ih
      refine ⟨k + 1, ?_⟩
      rw [main_go, hsr]
      simp only [reduceIte]
      rw [hout]
      simp only []
      have hitems2 : main_process_items gw ct items msgs
          (fin ++ ["received toolUse request"]) resp calls =
          (Except.ok (m2, f2, r2, c2), evs) := hitems
      rw [hitems2]
      simp only [dif_neg hlt]
      rw [turnVals_append, turnVals_append]
      have h2 := turnVals_main_process_items gw ct items msgs
        (fin ++ ["received toolUse request"]) resp calls
      rw [hitems2] at h2
      rw [h2, turnVals_turnIncr, hk]
      rfl
  | case6 tc resp msgs fin calls hsr h1 =>
      exact ⟨0, by rw [main_go, hsr]; rfl⟩
  | case7 tc resp msgs fin calls hsr h1 h2 =>
      exact ⟨0, by rw [main_go, hsr]; rfl⟩
  | case8 tc resp msgs fin calls hsr h1 h2 h3 =>
      exact ⟨0, by rw [main_go, hsr]; rfl⟩
  | case9 tc resp msgs fin calls hout hsr h1 h2 h3 h4 =>
      exact ⟨0, by rw [main_go, hsr]; simp only [reduceIte]; rw [hout]; rfl⟩
  | case10 tc resp msgs fin calls hout hsr h1 h2 h3 h4 =>
      exact ⟨0, by rw [main_go, hsr]; simp only [reduceIte]; rw [hout]; rfl⟩
  | case11 tc resp msgs fin calls item tail hout hx hsr h1 h2 h3 h4 =>
      exact ⟨0, by rw [main_go, hsr]; simp only [reduceIte]; rw [hout]; simp only []; rw [hx]; rfl⟩
  | case12 tc resp msgs fin calls item tail hout t hx hsr h1 h2 h3 h4 =>
      exact ⟨0, by rw [main_go, hsr]; simp only [reduceIte]; rw [hout]; simp only []; rw [hx]; rfl⟩
  | case13 tc resp msgs fin calls t hsr h1 h2 h3 h4 h5 tcl hle =>
      refine ⟨1, ?_⟩
      rw [main_go, hsr]
      simp only []
      rw [if_neg h1, if_neg h2, if_neg h3, if_neg h4, if_neg h5]
      have hle2 : mt ≤ tc + 1 := hle
      simp only [dif_pos hle2]
      rfl
  | case14 tc resp msgs fin calls t hsr h1 h2 h3 h4 h5 tcl hlt ih =>
      obtain ⟨k, hk⟩ := ih
      refine ⟨k + 1, ?_⟩
      rw [main_go, hsr]
      simp only []
      rw [if_neg h1, if_neg h2, if_neg h3, if_neg h4, if_neg h5]
      have hlt2 : ¬ mt ≤ tc + 1 := hlt
      simp only [dif_neg hlt2]
      have : turnVals (Event.turnIncr (tc + 1) ::
          (main_go gw ct mt (tc + 1) resp msgs fin calls).2) =
          (tc + 1) :: turnVals (main_go gw ct mt (tc + 1) resp msgs fin calls).2 := rfl
      rw [this, hk]
      rfl

theorem gwCount_turnIncr (n : Nat) : gwCount [Event.turnIncr n] = 0 := rfl

theorem gwCount_main_go (gw : GwStub) (ct : ToolStub) (mt : Nat)
    (hsingle : ∀ n h r, gw n h = .ok r → respDispatchCount r ≤ 1)
    (tc : Nat) (resp : GatewayResponse) (msgs : List Message)
    (fin : List String) (calls : Nat) :
    respDispatchCount resp ≤ 1 → tc < mt →
    gwCount (main_go gw ct mt tc resp msgs fin calls).2 ≤ mt - tc := by
  induction tc, resp, msgs, fin, calls using main_go.induct gw ct mt with
  | case1 tc resp msgs fin calls hsr =>
      intro hresp hlt
      rw [main_go, hsr]
      simp [gwCount]
  | case2 tc resp msgs fin calls hout hsr =>
      intro hresp hlt
      rw [main_go, hsr]
      simp only [reduceIte]
      rw [hout]
      simp [gwCount]
  | case3 tc resp msgs fin calls final1 items hout e evs hitems hsr =>
      intro hresp hlt
      rw [main_go, hsr]
      simp only [reduceIte]
      rw [hout]
      simp only []
      have hitems2 : main_process_items gw ct items msgs
          (fin ++ ["received toolUse request"]) resp calls = (Except.error e, evs) := hitems
      rw [hitems2]
      have h2 := gwCount_main_process_items gw ct items msgs
        (fin ++ ["received toolUse request"]) resp calls
      rw [hitems2] at h2
      have h2b : gwCount evs ≤ (dispatchedBlocks items).length := h2
      have h3 : respDispatchCount resp = (dispatchedBlocks items).length := by
        simp [respDispatchCount, hout]
      show gwCount evs ≤ mt - tc
      omega
  | case4 tc resp msgs fin calls final1 items hout m2 f2 r2 c2 evs hitems tcl hle hsr =>
      intro hresp hlt
      rw [main_go, hsr]
      simp only [reduceIte]
      rw [hout]
      simp only []
      have hitems2 : main_process_items gw ct items msgs
          (fin ++ ["received toolUse request"]) resp calls =
          (Except.ok (m2, f2, r2, c2), evs) := hitems
      rw [hitems2]
      have hle2 : mt ≤ tc + 1 := hle
      simp only [dif_pos hle2]
      rw [gwCount_append, gwCount_turnIncr]
      have h2 := gwCount_main_process_items gw ct items msgs
        (fin ++ ["received toolUse request"]) resp calls
      rw [hitems2] at h2
      have h2b : gwCount evs ≤ (dispatchedBlocks items).length := h2
      have h3 : respDispatchCount resp = (dispatchedBlocks items).length := by
        simp [respDispatchCount, hout]
      omega
  | case5 tc resp msgs fin calls final1 items hout m2 f2 r2 c2 evs hitems tcl hlt0 hsr ih =>
      intro hresp hlt
      rw [main_go, hsr]
      simp only [reduceIte]
      rw [hout]
      simp only []
      have hitems2 : main_process_items gw ct items msgs
          (fin ++ ["received toolUse request"]) resp calls =
          (Except.ok (m2, f2, r2, c2), evs) := hitems
      rw [hitems2]
      have hlt2 : ¬ mt ≤ tc + 1 := hlt0
      simp only [dif_neg hlt2]
      rw [gwCount_append, gwCount_append, gwCount_turnIncr]
      have h2 := gwCount_main_process_items gw ct items msgs
        (fin ++ ["received toolUse request"]) resp calls
      rw [hitems2] at h2
      have h2b : gwCount evs ≤ (dispatchedBlocks items).length := h2
      have h3 : respDispatchCount resp = (dispatchedBlocks items).length := by
        simp [respDispatchCount, hout]
      have hr2 : respDispatchCount r2 ≤ 1 := by
        rcases main_process_items_resp_origin gw ct items msgs
          (fin ++ ["received toolUse request"]) resp calls m2 f2 r2 c2
          (by rw [hitems2]) with h4 | ⟨n, hmsg, h4⟩
        · rw [h4]; exact hresp
        · exact hsingle n hmsg r2 h4
      have h5 : gwCount (main_go gw ct mt (tc + 1) r2 m2 f2 c2).2 ≤ mt - (tc + 1) :=
        ih hr2 (by omega)
      omega
  | case6 tc resp msgs fin calls hsr h1 =>
      intro hresp hlt
      rw [main_go, hsr]
      simp [gwCount]
  | case7 tc resp msgs fin calls hsr h1 h2 =>
      intro hresp hlt
      rw [main_go, hsr]
      simp [gwCount]
  | case8 tc resp msgs fin calls hsr h1 h2 h3 =>
      intro hresp hlt
      rw [main_go, hsr]
      simp [gwCount]
  | case9 tc resp msgs fin calls hout hsr h1 h2 h3 h4 =>
      intro hresp hlt
      rw [main_go, hsr]
      simp only [reduceIte]
      rw [hout]
      simp [gwCount]
  | case10 tc resp msgs fin calls hout hsr h1 h2 h3 h4 =>
      intro hresp hlt
      rw [main_go, hsr]
      simp only [reduceIte]
      rw [hout]
      simp [gwCount]
  | case11 tc resp msgs fin calls item tail hout hx hsr h1 h2 h3 h4 =>
      intro hresp hlt
      rw [main_go, hsr]
      simp only [reduceIte]
      rw [hout]
      simp only []
      rw [hx]
      simp [gwCount]
  | case12 tc resp msgs fin calls item tail hout t hx hsr h1 h2 h3 h4 =>
      intro hresp hlt
      rw [main_go, hsr]
      simp only [reduceIte]
      rw [hout]
      simp only []
      rw [hx]
      simp [gwCount]
  | case13 tc resp msgs fin calls t hsr h1 h2 h3 h4 h5 tcl hle =>
      intro hresp hlt
      rw [main_go, hsr]
      simp only []
      rw [if_neg h1, if_neg h2, if_neg h3, if_neg h4, if_neg h5]
      have hle2 : mt ≤ tc + 1 := hle
      simp only [dif_pos hle2]
      simp [gwCount]
  | case14 tc resp msgs fin calls t hsr h1 h2 h3 h4 h5 tcl hlt0 ih =>
      intro hresp hlt
      rw [main_go, hsr]
      simp only []
      rw [if_neg h1, if_neg h2, if_neg h3, if_neg h4, if_neg h5]
      have hlt2 : ¬ mt ≤ tc + 1 := hlt0
      simp only [dif_neg hlt2]
      have h5 : gwCount (main_go gw ct mt (tc + 1) resp msgs fin calls).2 ≤ mt - (tc + 1) :=
        ih hresp (by omega)
      have h6 : gwCount (Event.turnIncr (tc + 1) ::
          (main_go gw ct mt (tc + 1) resp msgs fin calls).2) =
          gwCount (main_go gw ct mt (tc + 1) resp msgs fin calls).2 := by
        simp [gwCount, List.countP_cons]
      rw [h6]
      omega

theorem rangeFrom_increasing (a k : Nat) : TurnsIncreasing (rangeFrom a k) := by
  intro i j x y hij hx hy
  rw [rangeFrom_get? k a i] at hx
  rw [rangeFrom_get? k a j] at hy
  by_cases hi : i < k
  · rw [if_pos hi] at hx
    by_cases hj : j < k
    · rw [if_pos hj] at hy
      have hx2 : a + i = x := Option.some.inj hx
      have hy2 : a + j = y := Option.some.inj hy
      omega
    · rw [if_neg hj] at hy
      exact absurd hy (by simp)
  · rw [if_neg hi] at hx
    exact absurd hx (by simp)

theorem turnVals_gwCall_cons (h : List Message) (l : List Event) :
    turnVals (Event.gwCall h :: l) = turnVals l := rfl

theorem gwCount_gwCall_cons (h : List Message) (l : List Event) :
    gwCount (Event.gwCall h :: l) = gwCount l + 1 := by
  simp [gwCount, List.countP_cons]

set_option maxRecDepth 4000 in
theorem C2_turn_monotonicity_and_call_bound :
    (∀ (gw : GwStub) (ct : ToolStub) (lt : Except Exc (List SessionTool))
      (q : String) (mt : Nat),
      TurnsIncreasing (turnVals (main_process_query_core gw ct lt q mt).2)) ∧
    (∀ (gw : GwStub) (ct : ToolStub) (lt : Except Exc (List SessionTool))
      (q : String) (mt : Nat),
      1 ≤ mt →
      (∀ n h r, gw n h = .ok r → respDispatchCount r ≤ 1) →
      gwCount (main_process_query_core gw ct lt q mt).2 ≤ mt + 1) ∧
    (gwCount (main_process_query_core gwAlwaysToolUse ctTrivialOk ltOneTool "go" 2).2 = 3 ∧
     turnVals (main_process_query_core gwAlwaysToolUse ctTrivialOk ltOneTool "go" 2).2 = [1, 2] ∧
     ∃ pre, (main_process_query_core gwAlwaysToolUse ctTrivialOk ltOneTool "go" 2).1 =
       .ok (joinFrags (pre ++ [limitMarker]))) := by
  refine ⟨?_, ?_, ?_, ?_, ?_⟩
  · intro gw ct lt q mt
    unfold main_process_query_core
    cases lt with
    | error e =>
        intro i j x y hij hx hy
        simp [turnVals] at hx
    | ok tools =>
        cases hgw : gw 0 [Message.user q] with
        | error e =>
            intro i j x y hij hx hy
            simp [hgw, turnVals] at hx
        | ok r =>
            simp only [hgw, turnVals_gwCall_cons]
            have := turnVals_main_go gw ct mt 0 r [Message.user q]
              [] 1
            unfold main_process_response_core
            obtain ⟨k, hk⟩ := this
            rw [hk]
            exact rangeFrom_increasing 1 k
  · intro gw ct lt q mt hmt hsingle
    unfold main_process_query_core
    cases lt with
    | error e => simp [gwCount]
    | ok tools =>
        cases hgw : gw 0 [Message.user q] with
        | error e => simp [hgw, gwCount]
        | ok r =>
            simp only [hgw, gwCount_gwCall_cons]
            unfold main_process_response_core
            have hb := gwCount_main_go gw ct mt hsingle 0 r [Message.user q] [] 1
              (hsingle 0 [Message.user q] r hgw) (by omega)
            omega
  · simp [main_process_query_core, main_process_response_core, main_go, main_process_items,
      main_handle_tool_call, gwAlwaysToolUse, ctTrivialOk, ltOneTool, respOneToolUse,
      trivialToolBlock, oneSessionTool, Message.tool_result, gwCount]
  · simp [main_process_query_core, main_process_response_core, main_go, main_process_items,
      main_handle_tool_call, gwAlwaysToolUse, ctTrivialOk, ltOneTool, respOneToolUse,
      trivialToolBlock, oneSessionTool, Message.tool_result, turnVals]
  · refine ⟨["received toolUse request", "[Calling tool trivial with args args]",
      "received toolUse request", "[Calling tool trivial with args args]"], ?_⟩
    simp [main_process_query_core, main_process_response_core, main_go,
      main_process_items, main_handle_tool_call, gwAlwaysToolUse, ctTrivialOk, ltOneTool,
      respOneToolUse, trivialToolBlock, oneSessionTool, Message.tool_result]
    rfl

theorem C7_sequential_dispatch (gw : GwStub) (ct : ToolStub)
    (rt : String → JsonVal → String)
    (hct : ∀ n a, ct n a = .ok { content := [.mcp (some (rt n a))] })
    (hgw : ∀ n h, ∃ r, gw n h = .ok r) :
    ∀ (items : List RespItem) (msgs : List Message) (fin : List String)
      (resp : GatewayResponse) (calls : Nat),
    toolCallBlocks (main_process_items gw ct items msgs fin resp calls).2 =
      dispatchedBlocks items ∧
    ∀ i n id inp mb,
      (main_process_items gw ct items msgs fin resp calls).2.get? i =
        some (.toolCall n id inp mb) →
      (main_process_items gw ct items msgs fin resp calls).2.get? (i + 1) =
        some (.gwCall (mb ++ [Message.tool_request id n inp,
          { role := "user", content := [.toolResult id [.jsonText (rt n inp)]] }])) := by
  intro items
  induction items with
  | nil =>
      intro msgs fin resp calls
      constructor
      · rw [main_process_items]; rfl
      · intro i n id inp mb hi
        rw [main_process_items] at hi
        simp at hi
  | cons item rest ih =>
      intro msgs fin resp calls
      cases hx : item.text with
      | some t =>
          have h2 := ih (msgs ++ [Message.assistant t])
            (fin ++ [s!"[Thinking: {t}]"]) resp calls
          constructor
          · rw [main_process_items, hx]
            rw [dispatchedBlocks_cons_text item rest t hx]
            exact h2.1
          · intro i n id inp mb hi
            rw [main_process_items, hx] at hi ⊢
            exact h2.2 i n id inp mb hi
      | none =>
          cases hu : item.toolUse with
          | none =>
              have h2 := ih msgs fin resp calls
              constructor
              · rw [main_process_items, hx, hu]
                rw [dispatchedBlocks_cons_skip item rest hx hu]
                exact h2.1
              · intro i n id inp mb hi
                rw [main_process_items, hx, hu] at hi ⊢
                exact h2.2 i n id inp mb hi
          | some ti =>
              have hmsg : (main_handle_tool_call ct ti msgs).messages =
                  msgs ++ [Message.tool_request ti.toolUseId ti.name ti.input,
                    { role := "user",
                      content := [.toolResult ti.toolUseId [.jsonText (rt ti.name ti.input)]] }] := by
                unfold main_handle_tool_call
                rw [hct ti.name ti.input]
                simp [Message.tool_result]
              obtain ⟨r, hr⟩ := hgw calls (main_handle_tool_call ct ti msgs).messages
              have hevs : (main_process_items gw ct (item :: rest) msgs fin resp calls).2 =
                  Event.toolCall ti.name ti.toolUseId ti.input msgs ::
                  Event.gwCall (main_handle_tool_call ct ti msgs).messages ::
                  (main_process_items gw ct rest (main_handle_tool_call ct ti msgs).messages
                    (fin ++ (main_handle_tool_call ct ti msgs).fragments) r (calls + 1)).2 := by
                rw [main_process_items, hx, hu]
                simp only []
                rw [hr]
                simp only []
                rw [main_handle_tool_call_events]
                rfl
              have h2 := ih (main_handle_tool_call ct ti msgs).messages
                (fin ++ (main_handle_tool_call ct ti msgs).fragments) r (calls + 1)
              constructor
              · rw [hevs, dispatchedBlocks_cons_tool item rest ti hx hu]
                simp only [toolCallBlocks, List.filterMap_cons]
                simp only [toolCallBlocks] at h2
                rw [h2.1]
              · intro i n id inp mb hi
                rw [hevs] at hi ⊢
                match i with
                | 0 =>
                    simp only [List.get?_cons_zero, Option.some.injEq] at hi
                    cases hi
                    simp only [List.get?_cons_succ, List.get?_cons_zero]
                    rw [hmsg]
                | 1 =>
                    simp only [List.get?_cons_succ, List.get?_cons_zero] at hi
                    exact absurd hi (by simp)
                | (j + 2) =>
                    simp only [List.get?_cons_succ] at hi ⊢
                    exact h2.2 j n id inp mb hi

theorem toString_self (s : String) : toString s = s := rfl

theorem C2_witness :
    gwCount (main_process_query_core gwAlwaysToolUse ctTrivialOk ltOneTool "go" 2).2 ≤ 2 + 1 := by
  refine C2_turn_monotonicity_and_call_bound.2.1 gwAlwaysToolUse ctTrivialOk ltOneTool
    "go" 2 (by omega) ?_
  intro n h r hr
  have h2 : r = respOneToolUse := by
    have h3 : Except.ok (ε := Exc) respOneToolUse = .ok r := hr
    exact (Except.ok.inj h3).symm
  subst h2
  decide

theorem C7_witness :
    toolCallBlocks (main_process_items gwAlwaysToolUse
      (fun _ _ => .ok { content := [.mcp (some "r")] })
      [{ text := none, toolUse := some { toolUseId := "a1", name := "capture", input := "x" } },
       { text := none, toolUse := some { toolUseId := "b2", name := "post", input := "y" } }]
      [] [] respOneToolUse 0).2 =
      dispatchedBlocks
        [{ text := none, toolUse := some { toolUseId := "a1", name := "capture", input := "x" } },
         { text := none, toolUse := some { toolUseId := "b2", name := "post", input := "y" } }] ∧
    ∀ i n id inp mb,
      (main_process_items gwAlwaysToolUse
        (fun _ _ => .ok { content := [.mcp (some "r")] })
        [{ text := none, toolUse := some { toolUseId := "a1", name := "capture", input := "x" } },
         { text := none, toolUse := some { toolUseId := "b2", name := "post", input := "y" } }]
        [] [] respOneToolUse 0).2.get? i = some (.toolCall n id inp mb) →
      (main_process_items gwAlwaysToolUse
        (fun _ _ => .ok { content := [.mcp (some "r")] })
        [{ text := none, toolUse := some { toolUseId := "a1", name := "capture", input := "x" } },
         { text := none, toolUse := some { toolUseId := "b2", name := "post", input := "y" } }]
        [] [] respOneToolUse 0).2.get? (i + 1) =
        some (.gwCall (mb ++ [Message.tool_request id n inp,
          { role := "user", content := [.toolResult id [.jsonText ((fun _ _ => "r") n inp)]] }])) :=
  C7_sequential_dispatch gwAlwaysToolUse
    (fun _ _ => .ok { content := [.mcp (some "r")] }) (fun _ _ => "r")
    (fun _ _ => rfl) (fun _ _ => ⟨respOneToolUse, rfl⟩)
    [{ text := none, toolUse := some { toolUseId := "a1", name := "capture", input := "x" } },
     { text := none, toolUse := some { toolUseId := "b2", name := "post", input := "y" } }]
    [] [] respOneToolUse 0

theorem C9_defensive_failure_paths :
    (∀ (gw : GwStub) (ct : ToolStub) (lt : Except Exc (List SessionTool))
      (q : String) (mt : Nat),
      isBlankQuery q = false →
      (bedrock_process_query_core gw ct lt false q mt).1 =
        "エラー: サーバーとの接続が確立されていません。") ∧
    (∀ (gw : GwStub) (ct : ToolStub) (e : Exc) (q : String) (mt : Nat),
      isBlankQuery q = false →
      "エラー".data <+: (bedrock_process_query_core gw ct (.error e) true q mt).1.data) ∧
    (∀ (gw : GwStub) (ct : ToolStub) (tools : List SessionTool) (e : Exc)
      (q : String) (mt : Nat),
      isBlankQuery q = false →
      tools ≠ [] →
      gw 0 [Message.user q] = .error e →
      "エラー".data <+: (bedrock_process_query_core gw ct (.ok tools) true q mt).1.data) := by
  refine ⟨?_, ?_, ?_⟩
  · intro gw ct lt q mt hq
    simp [bedrock_process_query_core, hq]
  · intro gw ct e q mt hq
    cases e with
    | timeoutErr m =>
        simp only [bedrock_process_query_core, hq]
        decide
    | keyErr m =>
        have h1 : (bedrock_process_query_core gw ct (.error (.keyErr m)) true q mt).1 =
            "エラー: クエリ処理中にエラーが発生: " ++ m := by
          simp [bedrock_process_query_core, hq, Exc.str, toString_self, String.append_empty]
        rw [h1, String.data_append]
        exact List.IsPrefix.trans (by decide) (List.prefix_append _ _)
    | err m =>
        have h1 : (bedrock_process_query_core gw ct (.error (.err m)) true q mt).1 =
            "エラー: クエリ処理中にエラーが発生: " ++ m := by
          simp [bedrock_process_query_core, hq, Exc.str, toString_self, String.append_empty]
        rw [h1, String.data_append]
        exact List.IsPrefix.trans (by decide) (List.prefix_append _ _)
  · intro gw ct tools e q mt hq htools hgw
    have hne : (tools.map fun t =>
        ToolDescriptor.mk t.name t.description t.inputSchema).isEmpty = false := by
      cases tools with
      | nil => exact absurd rfl htools
      | cons a l => rfl
    cases e with
    | timeoutErr m =>
        have h1 : (bedrock_process_query_core gw ct (.ok tools) true q mt).1 =
            "エラー: リクエスト処理がタイムアウトしました" := by
          simp [bedrock_process_query_core, hq, hne, hgw]
        rw [h1]
        decide
    | keyErr m =>
        have h1 : (bedrock_process_query_core gw ct (.ok tools) true q mt).1 =
            "エラー: クエリ処理中にエラーが発生: " ++ m := by
          simp [bedrock_process_query_core, hq, hne, hgw, Exc.str, toString_self, String.append_empty]
        rw [h1, String.data_append]
        exact List.IsPrefix.trans (by decide) (List.prefix_append _ _)
    | err m =>
        have h1 : (bedrock_process_query_core gw ct (.ok tools) true q mt).1 =
            "エラー: クエリ処理中にエラーが発生: " ++ m := by
          simp [bedrock_process_query_core, hq, hne, hgw, Exc.str, toString_self, String.append_empty]
        rw [h1, String.data_append]
        exact List.IsPrefix.trans (by decide) (List.prefix_append _ _)

theorem C9_witness :
    (bedrock_process_query_core gwHello ctTrivialOk ltOneTool false "hi" 100).1 =
      "エラー: サーバーとの接続が確立されていません。" :=
  C9_defensive_failure_paths.1 gwHello ctTrivialOk ltOneTool "hi" 100 (by decide)

